import Mathlib

/-!
Verification of the InvestHome retirement projection engine (src/investhome.py).

The numeric core is embedded shallowly:
* monetary amounts and rates are rationals (exact arithmetic mirroring the
  Python expressions; floating-point rounding is not modelled),
* the year loops of the script become iterated list-append steps, exactly as
  the Python `for` loops append to `savings` / `contributions` / `growth`,
* the CAGR formulas and the return estimator, which use a real-number power
  `x ** (1/n)`, are embedded over `ℝ` with `Real.rpow`,
* the `@retry(stop_after_attempt(3))` and `@lru_cache` decorators on
  `get_stock_return` are modelled as explicit combinators: a retry loop over
  an attempt-indexed fallible fetch, and an association-list cache.
-/

namespace InvestHome

/-! ## Primary savings projection (src/investhome.py lines 228-238)

State of the loop: the three lists `savings`, `contributions`, `growth`.
Initially `([current_savings], [0], [0])`; each loop iteration computes
`annual_growth = savings[-1] * manual_return` and appends
`annual_contribution`, `annual_growth`, and
`savings[-1] + annual_contribution + annual_growth`. -/

/-- One iteration of the savings projection loop (lines 234-238). -/
def projStep (annual_contribution manual_return : ℚ)
    (st : List ℚ × List ℚ × List ℚ) : List ℚ × List ℚ × List ℚ :=
  let annual_growth := st.1.getLastD 0 * manual_return
  (st.1 ++ [st.1.getLastD 0 + annual_contribution + annual_growth],
   st.2.1 ++ [annual_contribution],
   st.2.2 ++ [annual_growth])

/-- The `(savings, contributions, growth)` lists after the whole loop
(lines 228-238): start at `([current_savings], [0], [0])` and run the body
once per year in `1..years_to_invest`. -/
def projection (current_savings annual_contribution manual_return : ℚ)
    (years_to_invest : ℕ) : List ℚ × List ℚ × List ℚ :=
  (projStep annual_contribution manual_return)^[years_to_invest]
    ([current_savings], [0], [0])

/-- Closed-form balance of the primary recurrence:
`balance 0 = s`, `balance (k+1) = balance k + c + balance k * r`. -/
def balance (s c r : ℚ) : ℕ → ℚ
  | 0 => s
  | k + 1 => balance s c r k + c + balance s c r k * r

/-- Embeds `pandas.Series.cumsum` on a list, with an explicit running total. -/
def cumsumFrom (acc : ℚ) : List ℚ → List ℚ
  | [] => []
  | x :: xs => (acc + x) :: cumsumFrom (acc + x) xs

/-- Embeds `pandas.Series.cumsum`: list of prefix sums (lines 245-246). -/
def cumsum (l : List ℚ) : List ℚ := cumsumFrom 0 l

/-! ## Comparison-path projection (src/investhome.py lines 290-292) -/

/-- One iteration of the comparison loop body (line 292):
`option_savings.append(option_savings[-1] * (1 + return_rate) + annual_contribution)`. -/
def optionStep (annual_contribution return_rate : ℚ) (l : List ℚ) : List ℚ :=
  l ++ [l.getLastD 0 * (1 + return_rate) + annual_contribution]

/-- The `option_savings` list after the comparison loop (lines 290-292). -/
def optionSavings (current_savings annual_contribution return_rate : ℚ)
    (years_to_invest : ℕ) : List ℚ :=
  (optionStep annual_contribution return_rate)^[years_to_invest] [current_savings]

/-- Closed-form balance of the comparison recurrence:
`optBalance 0 = s`, `optBalance (k+1) = optBalance k * (1 + r) + c`. -/
def optBalance (s c r : ℚ) : ℕ → ℚ
  | 0 => s
  | k + 1 => optBalance s c r k * (1 + r) + c

/-! ## Closed forms for the loops -/

theorem projection_eq (s c r : ℚ) (n : ℕ) :
    projection s c r n =
      ((List.range (n + 1)).map (balance s c r),
       0 :: List.replicate n c,
       0 :: (List.range n).map (fun k => balance s c r k * r)) := by
  induction n with
  | zero => simp [projection, List.range_succ, balance]
  | succ n ih =>
    rw [projection, Function.iterate_succ_apply', ← projection, ih]
    simp only [projStep, List.getLastD_concat]
    have hlast : ((List.range (n + 1)).map (balance s c r)).getLastD 0
        = balance s c r n := by
      rw [List.range_succ, List.map_append]
      simp
    refine Prod.ext ?_ (Prod.ext ?_ ?_)
    · show (List.range (n + 1)).map (balance s c r) ++ _
        = (List.range (n + 1 + 1)).map (balance s c r)
      rw [hlast, List.range_succ (n := n + 1), List.map_append]
      simp [balance]
    · show (0 :: List.replicate n c) ++ [c] = 0 :: List.replicate (n + 1) c
      simp [List.replicate_succ' (n := n)]
    · show (0 :: (List.range n).map fun k => balance s c r k * r) ++ _
        = 0 :: (List.range (n + 1)).map fun k => balance s c r k * r
      rw [hlast, List.range_succ (n := n), List.map_append]
      simp

theorem optionSavings_eq (s c r : ℚ) (n : ℕ) :
    optionSavings s c r n = (List.range (n + 1)).map (optBalance s c r) := by
  induction n with
  | zero => simp [optionSavings, List.range_succ, optBalance]
  | succ n ih =>
    rw [optionSavings, Function.iterate_succ_apply', ← optionSavings, ih]
    have hlast : ((List.range (n + 1)).map (optBalance s c r)).getLastD 0
        = optBalance s c r n := by
      rw [List.range_succ, List.map_append]
      simp
    rw [optionStep, hlast, List.range_succ (n := n + 1), List.map_append]
    simp [optBalance]

/-- The two recurrences coincide in exact arithmetic:
`b + c + b*r = b*(1+r) + c`. -/
theorem balance_eq_optBalance (s c r : ℚ) (k : ℕ) :
    balance s c r k = optBalance s c r k := by
  induction k with
  | zero => rfl
  | succ k ih => rw [balance, optBalance, ih]; ring

/-- Indexing helper: the `k`-th entry of a mapped range. -/
theorem getD_map_range (f : ℕ → ℚ) (n k : ℕ) (h : k < n) :
    ((List.range n).map f).getD k 0 = f k := by
  rw [List.getD_eq_getElem?_getD, List.getElem?_map, List.getElem?_range h]
  rfl

/-! ## Summary metrics (src/investhome.py lines 254-263 and 293-300) -/

/-- Source line 254: `total_contributions = sum(contributions)`. -/
def total_contributions (contributions : List ℚ) : ℚ := contributions.sum

/-- Source line 255: `total_growth = savings[-1] - total_contributions -
current_savings`. -/
def total_growth (savings : List ℚ) (total_contribs current_savings : ℚ) : ℚ :=
  savings.getLastD 0 - total_contribs - current_savings

/-- Source line 295: `total_option_returns = total_option_savings -
total_option_contributions - current_savings`. -/
def total_option_returns
    (total_option_savings total_option_contributions current_savings : ℚ) : ℚ :=
  total_option_savings - total_option_contributions - current_savings

/-- Primary CAGR (lines 258-263): `((end/start) ** (1/years)) - 1` when
`start_value > 0 and years_to_invest > 0`, else `0`. The Python float power
becomes `Real.rpow`. -/
noncomputable def cagr (start_value end_value : ℝ) (years_to_invest : ℕ) : ℝ :=
  if 0 < start_value ∧ 0 < years_to_invest then
    (end_value / start_value) ^ ((1 : ℝ) / years_to_invest) - 1
  else 0

/-- Per-option CAGR of the comparison loop (lines 297-300):
`((total_option_savings / current_savings) ** (1/years_to_invest)) - 1` when
`current_savings > 0 and years_to_invest > 0`, else `0`. -/
noncomputable def option_cagr (current_savings total_option_savings : ℝ)
    (years_to_invest : ℕ) : ℝ :=
  if 0 < current_savings ∧ 0 < years_to_invest then
    (total_option_savings / current_savings) ^ ((1 : ℝ) / years_to_invest) - 1
  else 0

/-! ## Return estimator (src/investhome.py lines 11-49)

A fetched history is a list of `(date, close)` rows, the date as a day count
(only differences of dates enter the computation, via `.days`) and the close
an `Option ℝ` (`none` = NaN, removed by `dropna`). The fetch itself may fail:
`Except.error` stands for any exception raised inside the `try` block. The
result is paired with a `Bool` recording whether `st.warning` was called
(`true` exactly when the default rate was substituted). -/

/-- One fetched price row: (date in days, possibly-missing closing price). -/
abbrev Hist : Type := List (ℤ × Option ℝ)

/-- Source line 31, `hist['Close'].dropna()`: keep the rows with a present close. -/
def dropna (hist : Hist) : List (ℤ × ℝ) :=
  hist.filterMap fun p => p.2.map fun close => (p.1, close)

/-- Body of `get_stock_return` (lines 23-49), as a function of the fetch
outcome. Mirrors the guard order of the source: `hist.empty`, then
`len(hist) < 2` after `dropna`, then `num_years < 1`, else the CAGR formula;
every guarded exit and the `except` branch return the default `0.07` with a
warning. -/
noncomputable def get_stock_return (fetched : Except String Hist) : ℝ × Bool :=
  match fetched with
  | Except.error _ => (0.07, true)
  | Except.ok hist =>
    if hist.isEmpty then (0.07, true)
    else
      let closes := dropna hist
      if closes.length < 2 then (0.07, true)
      else
        let initial_price := (closes.headD (0, 0)).2
        let final_price := (closes.getLastD (0, 0)).2
        let num_years :=
          (((closes.getLastD (0, 0)).1 - (closes.headD (0, 0)).1 : ℤ) : ℝ) / 365.25
        if num_years < 1 then (0.07, true)
        else ((final_price / initial_price) ^ ((1 : ℝ) / num_years) - 1, false)

/-- The return estimator as the specification words it: any of
{fetch error, empty series, fewer than 2 non-missing points, elapsed span
(days / 365.25) below 1 year} yields exactly the default rate 0.07 with a
non-blocking warning; otherwise `(lastPrice / firstPrice)^(1 / elapsedYears) - 1`
with no warning. -/
noncomputable def specReturnEstimate (fetched : Except String Hist) : ℝ × Bool :=
  match fetched with
  | Except.error _ => (0.07, true)
  | Except.ok hist =>
    let pts := dropna hist
    let elapsedYears :=
      (((pts.getLastD (0, 0)).1 - (pts.headD (0, 0)).1 : ℤ) : ℝ) / 365.25
    if hist.isEmpty ∨ pts.length < 2 ∨ elapsedYears < 1 then (0.07, true)
    else (((pts.getLastD (0, 0)).2 / (pts.headD (0, 0)).2)
            ^ ((1 : ℝ) / elapsedYears) - 1, false)

/-! ## Retry and cache decorators (src/investhome.py lines 11-12)

`@retry(stop=stop_after_attempt(3))` wraps `@lru_cache(maxsize=128)` which
wraps the body. The retry combinator re-invokes the wrapped call while it
raises, up to the given number of attempts, and reports the attempt count;
fallibility is `Except`. The cache is an association list keyed by symbol
(the 5-year window is fixed in the source); the `Bool` in the cache-call
result records whether the underlying fetch ran. -/

/-- Retry loop: attempt `i`, on `Except.error` try again while attempts
remain. Returns the final outcome and the number of attempts made. -/
def retryAux (f : ℕ → Except String α) (i : ℕ) : ℕ → Except String α × ℕ
  | 0 => (Except.error "", 0)
  | fuel + 1 =>
    match f i with
    | Except.ok a => (Except.ok a, 1)
    | Except.error e =>
      if fuel = 0 then (Except.error e, 1)
      else
        let r := retryAux f (i + 1) fuel
        (r.1, r.2 + 1)

/-- Embeds `tenacity.retry(stop=stop_after_attempt(maxAttempts))` applied to an
attempt-indexed fallible call. -/
def retryRun (maxAttempts : ℕ) (f : ℕ → Except String α) :
    Except String α × ℕ :=
  retryAux f 0 maxAttempts

/-- The function the retry decorator actually wraps: the (cached)
`get_stock_return` body. Its `try/except` catches every exception and
returns normally, so the wrapped call never raises. `fetchSeq i` is the
outcome the data source would produce on attempt `i`. -/
noncomputable def wrappedBody (fetchSeq : ℕ → Except String Hist)
    (i : ℕ) : Except String (ℝ × Bool) :=
  Except.ok (get_stock_return (fetchSeq i))

/-- Embeds `lru_cache`: look the symbol up; on a miss run the body once and store
the result. The final `Bool` is `true` iff the underlying fetch ran. -/
noncomputable def cachedCall (fetchOf : String → Except String Hist)
    (cache : List (String × (ℝ × Bool))) (stock_symbol : String) :
    (ℝ × Bool) × List (String × (ℝ × Bool)) × Bool :=
  match cache.lookup stock_symbol with
  | some v => (v, cache, false)
  | none =>
    let v := get_stock_return (fetchOf stock_symbol)
    (v, (stock_symbol, v) :: cache, true)

/-! ## Rate selection and inflation adjustment (lines 212-225, 288-289) -/

/-- Source lines 71-82, `adjust_for_inflation`. -/
def adjust_for_inflation (rate inflation_rate : ℚ) : ℚ := rate - inflation_rate

/-- The primary `manual_return` after the sidebar logic (lines 212-225):
custom input for "Custom", otherwise the option's rate function; then
inflation-adjusted iff the checkbox is set. `rates` maps an option label to
the value its `investment_options[label]()` call returns. -/
def manualReturnOf (rates : String → ℚ) (selected_option : String)
    (custom_input : ℚ) (adjust_for_inflation_option : Bool)
    (inflation_rate : ℚ) : ℚ :=
  let m := if selected_option = "Custom" then custom_input else rates selected_option
  if adjust_for_inflation_option then adjust_for_inflation m inflation_rate else m

/-- The `return_rate` of one comparison iteration (line 289):
`investment_options[option]() if option != "Custom" else manual_return`. -/
def return_rate_for (rates : String → ℚ) (manual_return : ℚ)
    (option : String) : ℚ :=
  if option ≠ "Custom" then rates option else manual_return

/-! ## Comparison rows (src/investhome.py lines 284-312) -/

/-- One row of the `comparison_metrics` table (lines 301-307), with the
numeric values before display formatting. -/
structure CompRow where
  option : String
  annualReturn : ℚ
  totalContributions : ℚ
  totalSavings : ℚ
  rowCagr : ℝ

/-- One iteration of the comparison loop (lines 288-307) for one option. -/
noncomputable def compRow (rates : String → ℚ) (manual_return current_savings
    annual_contribution : ℚ) (years_to_invest : ℕ) (option : String) : CompRow :=
  let return_rate := return_rate_for rates manual_return option
  let option_savings :=
    optionSavings current_savings annual_contribution return_rate years_to_invest
  let total_option_contributions := annual_contribution * years_to_invest
  let total_option_savings := option_savings.getLastD 0
  { option := option
    annualReturn := return_rate
    totalContributions := total_option_contributions
    totalSavings := total_option_savings
    rowCagr := option_cagr (current_savings : ℝ) (total_option_savings : ℝ)
      years_to_invest }

/-- The `comparison_metrics` list: the loop starts from `[]` and appends one
row per selected option, in order (lines 285-307). -/
noncomputable def comparison_metrics (rates : String → ℚ)
    (manual_return current_savings annual_contribution : ℚ)
    (years_to_invest : ℕ) (comparison_options : List String) : List CompRow :=
  comparison_options.foldl
    (fun acc option => acc ++
      [compRow rates manual_return current_savings annual_contribution
        years_to_invest option]) []

/-! ## Helper lemmas -/

theorem cumsumFrom_length (acc : ℚ) (l : List ℚ) :
    (cumsumFrom acc l).length = l.length := by
  induction l generalizing acc with
  | nil => rfl
  | cons x xs ih => simp [cumsumFrom, ih]

theorem cumsumFrom_getD (l : List ℚ) : ∀ (acc : ℚ) (k : ℕ), k < l.length →
    (cumsumFrom acc l).getD k 0 = acc + (l.take (k + 1)).sum := by
  induction l with
  | nil => intro acc k h; simp at h
  | cons x xs ih =>
    intro acc k h
    cases k with
    | zero => simp [cumsumFrom]
    | succ k =>
      rw [cumsumFrom, List.getD_cons_succ, ih (acc + x) k (by simpa using h),
        List.take_succ_cons, List.sum_cons]
      ring

theorem cumsum_getD_succ (l : List ℚ) (j : ℕ) (h : j + 1 < l.length) :
    (cumsum l).getD (j + 1) 0 = (cumsum l).getD j 0 + l.getD (j + 1) 0 := by
  have hj : j < l.length := Nat.lt_of_succ_lt h
  have h2 : l[j + 1]? = some l[j + 1] := List.getElem?_eq_getElem h
  rw [cumsum, cumsumFrom_getD l 0 (j + 1) h, cumsumFrom_getD l 0 j hj,
    List.take_succ (n := j + 1), List.sum_append,
    List.getD_eq_getElem?_getD, h2]
  simp

/-! ## Claim theorems -/

/-- C1: the primary projection follows convention (a): the trajectory lists
have length `horizonYears + 1`; entry 0 is `(startingBalance, 0, 0)`; for
`1 ≤ k ≤ horizonYears`, `growth_k = balance_(k-1) * rate` and
`balance_k = balance_(k-1) + annualContribution + growth_k`; and the
cumulative contribution and growth columns accumulate those per-year
values. -/
theorem spec_C1 (s c r : ℚ) (n k : ℕ) (hk1 : 1 ≤ k) (hk2 : k ≤ n) :
    ((projection s c r n).1.length = n + 1 ∧
     (projection s c r n).2.1.length = n + 1 ∧
     (projection s c r n).2.2.length = n + 1) ∧
    ((projection s c r n).1.getD 0 0 = s ∧
     (projection s c r n).2.1.getD 0 0 = 0 ∧
     (projection s c r n).2.2.getD 0 0 = 0) ∧
    ((projection s c r n).2.2.getD k 0 = (projection s c r n).1.getD (k - 1) 0 * r ∧
     (projection s c r n).1.getD k 0 =
       (projection s c r n).1.getD (k - 1) 0 + c + (projection s c r n).2.2.getD k 0) ∧
    ((cumsum (projection s c r n).2.1).getD k 0 =
       (cumsum (projection s c r n).2.1).getD (k - 1) 0 +
         (projection s c r n).2.1.getD k 0 ∧
     (cumsum (projection s c r n).2.2).getD k 0 =
       (cumsum (projection s c r n).2.2).getD (k - 1) 0 +
         (projection s c r n).2.2.getD k 0) := by
  obtain ⟨j, rfl⟩ : ∃ j, k = j + 1 := ⟨k - 1, (Nat.succ_pred_eq_of_pos hk1).symm⟩
  have hj : j < n := hk2
  have hjn1 : j < n + 1 := Nat.lt_succ_of_lt hj
  have hj1n1 : j + 1 < n + 1 := Nat.succ_lt_succ hj
  have hlen2 : ((projection s c r n).2.1).length = n + 1 := by
    rw [projection_eq]; simp
  have hlen3 : ((projection s c r n).2.2).length = n + 1 := by
    rw [projection_eq]; simp
  refine ⟨⟨?_, hlen2, hlen3⟩, ⟨?_, ?_, ?_⟩, ⟨?_, ?_⟩, ?_, ?_⟩
  · rw [projection_eq]; simp
  · rw [projection_eq]
    show ((List.range (n + 1)).map (balance s c r)).getD 0 0 = s
    rw [getD_map_range _ _ _ (Nat.succ_pos n)]
    rfl
  · rw [projection_eq]; rfl
  · rw [projection_eq]; rfl
  · rw [projection_eq]
    show (0 :: (List.range n).map fun i => balance s c r i * r).getD (j + 1) 0
      = ((List.range (n + 1)).map (balance s c r)).getD (j + 1 - 1) 0 * r
    rw [List.getD_cons_succ, Nat.succ_sub_one, getD_map_range _ _ _ hj,
      getD_map_range _ _ _ hjn1]
  · rw [projection_eq]
    show ((List.range (n + 1)).map (balance s c r)).getD (j + 1) 0
      = ((List.range (n + 1)).map (balance s c r)).getD (j + 1 - 1) 0 + c +
        (0 :: (List.range n).map fun i => balance s c r i * r).getD (j + 1) 0
    rw [List.getD_cons_succ, Nat.succ_sub_one, getD_map_range _ _ _ hj,
      getD_map_range _ _ _ hjn1, getD_map_range _ _ _ hj1n1]
    rw [balance]
  · rw [Nat.succ_sub_one]
    exact cumsum_getD_succ _ j (by rw [hlen2]; exact hj1n1)
  · rw [Nat.succ_sub_one]
    exact cumsum_getD_succ _ j (by rw [hlen3]; exact hj1n1)

theorem spec_C1_witness :
    (projection 100 10 (1 / 2) 2).1.getD 1 0 =
      (projection 100 10 (1 / 2) 2).1.getD 0 0 + 10 +
        (projection 100 10 (1 / 2) 2).2.2.getD 1 0 :=
  (spec_C1 100 10 (1 / 2) 2 1 (by norm_num) (by norm_num)).2.2.1.2

/-- Helper: with rate 0 the primary balance is `s + c * k`. -/
theorem balance_rate_zero (s c : ℚ) (k : ℕ) :
    balance s c 0 k = s + c * k := by
  induction k with
  | zero => simp [balance]
  | succ k ih => rw [balance, ih]; push_cast; ring

/-- Helper: the primary balance satisfies the running accounting identity
`balance k = s + c * k + sum of the first k growth amounts`. -/
theorem balance_accounting (s c r : ℚ) (k : ℕ) :
    balance s c r k =
      s + c * k + ((List.range k).map fun j => balance s c r j * r).sum := by
  induction k with
  | zero => simp [balance]
  | succ k ih =>
    rw [balance, List.range_succ, List.map_append, List.sum_append]
    simp only [List.map_cons, List.map_nil, List.sum_cons, List.sum_nil]
    rw [ih]
    push_cast
    ring

/-- C2 counterexample: at the nonzero rate 1/10 the comparison-path balances
are identical to the primary projection's balances, not numerically
different — `b + c + b*r` and `b*(1+r) + c` are the same number in exact
arithmetic. -/
theorem spec_C2_counterexample :
    optionSavings 100 10 (1 / 10) 3 = (projection 100 10 (1 / 10) 3).1 ∧
    (1 / 10 : ℚ) ≠ 0 := by
  constructor
  · rw [optionSavings_eq, projection_eq]
    exact List.map_congr_left fun a _ => (balance_eq_optBalance 100 10 (1 / 10) a).symm
  · norm_num

/-- C2 (amended): each compared option's balance series starts at
`startingBalance` and satisfies `balance_k = balance_(k-1) * (1 + rate) +
annualContribution` for `1 ≤ k ≤ horizonYears`; in exact arithmetic this
recurrence coincides with the primary projection's convention (a), so for
the same rate the comparison path produces exactly the same balances (any
numeric difference could come only from floating-point rounding order,
which is not part of this model). -/
theorem spec_C2_amended (s c r : ℚ) (n k : ℕ) (hk1 : 1 ≤ k) (hk2 : k ≤ n) :
    (optionSavings s c r n).getD 0 0 = s ∧
    (optionSavings s c r n).getD k 0 =
      (optionSavings s c r n).getD (k - 1) 0 * (1 + r) + c ∧
    optionSavings s c r n = (projection s c r n).1 := by
  obtain ⟨j, rfl⟩ : ∃ j, k = j + 1 := ⟨k - 1, (Nat.succ_pred_eq_of_pos hk1).symm⟩
  have hj : j < n := hk2
  refine ⟨?_, ?_, ?_⟩
  · rw [optionSavings_eq, getD_map_range _ _ _ (Nat.succ_pos n)]
    rfl
  · rw [optionSavings_eq, Nat.succ_sub_one, getD_map_range _ _ _ (Nat.lt_succ_of_lt hj),
      getD_map_range _ _ _ (Nat.succ_lt_succ hj)]
    rw [optBalance]
  · rw [optionSavings_eq, projection_eq]
    exact List.map_congr_left fun a _ => (balance_eq_optBalance s c r a).symm

theorem spec_C2_witness :
    (optionSavings 100 10 (1 / 10) 2).getD 1 0 =
      (optionSavings 100 10 (1 / 10) 2).getD 0 0 * (1 + 1 / 10) + 10 :=
  (spec_C2_amended 100 10 (1 / 10) 2 1 (by norm_num) (by norm_num)).2.1

/-- C3: for the primary trajectory and every comparison trajectory,
`totalGrowth + totalContributions + startingBalance = finalBalance` holds
exactly, and `totalGrowth` can be negative when the rate is negative. -/
theorem spec_C3 (s c r : ℚ) (n : ℕ) :
    (total_growth (projection s c r n).1
        (total_contributions (projection s c r n).2.1) s
      + total_contributions (projection s c r n).2.1 + s
      = (projection s c r n).1.getLastD 0) ∧
    (total_option_returns ((optionSavings s c r n).getLastD 0) (c * n) s
      + c * n + s = (optionSavings s c r n).getLastD 0) ∧
    ∃ s' c' r' : ℚ, ∃ n' : ℕ, r' < 0 ∧
      total_growth (projection s' c' r' n').1
        (total_contributions (projection s' c' r' n').2.1) s' < 0 := by
  refine ⟨by rw [total_growth]; ring, by rw [total_option_returns]; ring,
    100, 0, -(1 / 2), 1, by norm_num, ?_⟩
  rw [projection_eq]
  norm_num [total_growth, total_contributions, List.range_succ, balance]

/-- C7: with rate 0, both conventions give `balance_k = startingBalance +
annualContribution * k` at every index `k ≤ horizonYears`, and the primary
and comparison trajectories are identical. -/
theorem spec_C7 (s c : ℚ) (n k : ℕ) (hk : k ≤ n) :
    (projection s c 0 n).1.getD k 0 = s + c * k ∧
    (optionSavings s c 0 n).getD k 0 = s + c * k ∧
    (projection s c 0 n).1 = optionSavings s c 0 n := by
  have hk1 : k < n + 1 := Nat.lt_succ_of_le hk
  refine ⟨?_, ?_, ?_⟩
  · rw [projection_eq]
    show ((List.range (n + 1)).map (balance s c 0)).getD k 0 = s + c * k
    rw [getD_map_range _ _ _ hk1, balance_rate_zero]
  · rw [optionSavings_eq, getD_map_range _ _ _ hk1, ← balance_eq_optBalance,
      balance_rate_zero]
  · rw [optionSavings_eq, projection_eq]
    show (List.range (n + 1)).map (balance s c 0)
      = (List.range (n + 1)).map (optBalance s c 0)
    exact List.map_congr_left fun a _ => balance_eq_optBalance s c 0 a

theorem spec_C7_witness : (projection 10 5 0 3).1.getD 2 0 = 20 := by
  rw [(spec_C7 10 5 3 2 (by norm_num)).1]
  norm_num

/-- C9: the accounting identity holds at every year index of the primary
trajectory: `savings[k] = startingBalance + cumulativeContributions[k] +
cumulativeGrowth[k]`, where the cumulative columns are the `cumsum` of the
per-year contribution and growth lists, as in the displayed/exported
table. -/
theorem spec_C9 (s c r : ℚ) (n k : ℕ) (hk : k ≤ n) :
    (projection s c r n).1.getD k 0 =
      s + (cumsum (projection s c r n).2.1).getD k 0 +
        (cumsum (projection s c r n).2.2).getD k 0 := by
  have hk1 : k < n + 1 := Nat.lt_succ_of_le hk
  rw [projection_eq]
  show ((List.range (n + 1)).map (balance s c r)).getD k 0 =
    s + (cumsum (0 :: List.replicate n c)).getD k 0 +
      (cumsum (0 :: (List.range n).map fun i => balance s c r i * r)).getD k 0
  rw [getD_map_range _ _ _ hk1]
  simp only [cumsum]
  rw [cumsumFrom_getD _ _ _ (by simpa using hk1),
    cumsumFrom_getD _ _ _ (by simpa using hk1)]
  rw [List.take_succ_cons, List.take_succ_cons]
  rw [List.take_replicate, Nat.min_eq_left hk, List.sum_cons, List.sum_replicate]
  rw [← List.map_take, List.take_range, Nat.min_eq_left hk, List.sum_cons]
  rw [balance_accounting]
  push_cast [nsmul_eq_mul]
  ring

theorem spec_C9_witness :
    (projection 100 10 (1 / 2) 2).1.getD 2 0 =
      100 + (cumsum (projection 100 10 (1 / 2) 2).2.1).getD 2 0 +
        (cumsum (projection 100 10 (1 / 2) 2).2.2).getD 2 0 :=
  spec_C9 100 10 (1 / 2) 2 2 (by norm_num)

/-- C4: the reported CAGR equals
`(finalBalance / startingBalance)^(1/horizonYears) - 1` whenever
`startingBalance > 0` and `horizonYears > 0`, and equals 0 in every other
case (`startingBalance = 0` or `horizonYears = 0`); being a total function
it raises no division or root error, and the comparison rows compute the
same function. -/
theorem spec_C4 (start_value end_value : ℝ) (n : ℕ) :
    (0 < start_value → 0 < n →
      cagr start_value end_value n =
        (end_value / start_value) ^ ((1 : ℝ) / n) - 1) ∧
    (start_value = 0 ∨ n = 0 → cagr start_value end_value n = 0) ∧
    option_cagr start_value end_value n = cagr start_value end_value n := by
  refine ⟨fun h1 h2 => by rw [cagr, if_pos ⟨h1, h2⟩], fun h => ?_, rfl⟩
  rw [cagr, if_neg]
  rintro ⟨hs, hn⟩
  rcases h with h | h
  · exact lt_irrefl _ (h ▸ hs)
  · omega

theorem spec_C4_witness : cagr 1 2 1 = 1 ∧ cagr 0 2 5 = 0 := by
  constructor
  · rw [(spec_C4 1 2 1).1 (by norm_num) (by norm_num)]
    norm_num
  · exact (spec_C4 0 2 5).2.1 (Or.inl rfl)

/-- C5: the return estimator never fails: a fetch error, an empty series,
fewer than 2 non-missing points, or a first-to-last span below one year
(days / 365.25) each yield exactly the default 0.07 together with a
non-blocking warning, and otherwise the estimator returns
`(lastPrice / firstPrice)^(1 / elapsedYears) - 1` with no warning — i.e.
the code agrees with the specification's description pointwise. -/
theorem spec_C5 (fetched : Except String Hist) :
    get_stock_return fetched = specReturnEstimate fetched := by
  match fetched with
  | Except.error e => rfl
  | Except.ok hist =>
    rw [get_stock_return, specReturnEstimate]
    by_cases h1 : hist.isEmpty
    · simp [h1]
    · by_cases h2 : (dropna hist).length < 2
      · simp [h1, h2]
      · by_cases h3 :
          ((((dropna hist).getLastD (0, 0)).1 - ((dropna hist).headD (0, 0)).1 : ℤ) : ℝ)
              / 365.25 < 1
        · simp [h1, h2, h3]
        · simp [h1, h2, h3]

/-- C6 counterexample: a transient fetch failure is not retried. With a
fetch that errors on the first attempt and would succeed on the second
(yielding the non-default rate 0), the decorated call makes exactly one
attempt and returns the cached default 0.07: the `try/except` inside
`get_stock_return` swallows the exception, so the retry wrapper,
configured for up to 3 attempts, never observes a failure. -/
theorem spec_C6_counterexample :
    (retryRun 3 (wrappedBody fun i =>
        if i = 0 then Except.error "timeout" else Except.ok [(0, some 1), (731, some 1)])).2
        = 1 ∧
    (retryRun 3 (wrappedBody fun i =>
        if i = 0 then Except.error "timeout" else Except.ok [(0, some 1), (731, some 1)])).1
        = Except.ok (0.07, true) ∧
    get_stock_return (Except.ok [(0, some 1), (731, some 1)]) = (0, false) ∧
    (0 : ℝ) ≠ 0.07 := by
  refine ⟨rfl, ?_, ?_, by norm_num⟩
  · show Except.ok (get_stock_return (Except.error "timeout")) = Except.ok (0.07, true)
    rfl
  · rw [get_stock_return]
    have hne : ¬ (((731 - 0 : ℤ) : ℝ) / 365.25 < 1) := by norm_num
    simp only [List.isEmpty_cons, if_false, Bool.false_eq_true]
    rw [if_neg (by simp [dropna]), if_neg (by simpa [dropna] using hne)]
    simp [dropna, Real.one_rpow]

/-- C6 (amended): estimator results are cached per symbol for the session
(a repeated call with the same symbol hits the cache and does not
re-fetch), and although a retry wrapper with a 3-attempt stop is installed,
the estimator body catches every exception and returns normally, so the
wrapped call always completes in exactly one attempt — a transient fetch
failure is never retried; the default 0.07 is returned (and cached) after
the first attempt. -/
theorem spec_C6_amended (fetchOf : String → Except String Hist)
    (fetchSeq : ℕ → Except String Hist) (stock_symbol : String) (m : ℕ)
    (hm : 1 ≤ m) :
    (retryRun m (wrappedBody fetchSeq)).2 = 1 ∧
    ((cachedCall fetchOf [] stock_symbol).2.2 = true ∧
     (cachedCall fetchOf (cachedCall fetchOf [] stock_symbol).2.1 stock_symbol).2.2
        = false ∧
     (cachedCall fetchOf (cachedCall fetchOf [] stock_symbol).2.1 stock_symbol).1
        = (cachedCall fetchOf [] stock_symbol).1) := by
  obtain ⟨m', rfl⟩ := Nat.exists_eq_add_of_le hm
  refine ⟨?_, ?_, ?_, ?_⟩
  · rw [Nat.add_comm]
    simp [retryRun, retryAux, wrappedBody]
  · simp [cachedCall]
  · simp [cachedCall, List.lookup]
  · simp [cachedCall, List.lookup]

theorem spec_C6_witness :
    (retryRun 3 (wrappedBody fun _ => Except.error "network down")).2 = 1 :=
  (spec_C6_amended (fun _ => Except.error "network down")
    (fun _ => Except.error "network down") "SPY" 3 (by norm_num)).1

/-- Helper: a left fold that appends one built row per element is `map`. -/
theorem foldl_append_singleton {α β : Type} (f : α → β) (l : List α) :
    ∀ acc : List β, l.foldl (fun acc o => acc ++ [f o]) acc = acc ++ l.map f := by
  induction l with
  | nil => intro acc; simp
  | cons x xs ih => intro acc; simp [ih]

/-- C8: the comparison table has one row per selected option, built
independently from that option alone (the loop is a `map`: no shared
accumulator), rows appear in input order, and every row's total
contributions equal `annualContribution * horizonYears` whatever that
option's rate. -/
theorem spec_C8 (rates : String → ℚ)
    (manual_return current_savings annual_contribution : ℚ)
    (years_to_invest : ℕ) (comparison_options : List String) :
    comparison_metrics rates manual_return current_savings annual_contribution
        years_to_invest comparison_options =
      comparison_options.map (compRow rates manual_return current_savings
        annual_contribution years_to_invest) ∧
    (comparison_metrics rates manual_return current_savings annual_contribution
        years_to_invest comparison_options).map (fun row => row.option) =
      comparison_options ∧
    (comparison_metrics rates manual_return current_savings annual_contribution
        years_to_invest comparison_options).length = comparison_options.length ∧
    ∀ row ∈ comparison_metrics rates manual_return current_savings
        annual_contribution years_to_invest comparison_options,
      row.totalContributions = annual_contribution * years_to_invest := by
  have hmap : comparison_metrics rates manual_return current_savings
      annual_contribution years_to_invest comparison_options =
        comparison_options.map (compRow rates manual_return current_savings
          annual_contribution years_to_invest) := by
    rw [comparison_metrics, foldl_append_singleton]
    rfl
  refine ⟨hmap, ?_, ?_, ?_⟩
  · rw [hmap, List.map_map]
    have hcomp : ((fun row : CompRow => row.option) ∘ compRow rates manual_return
        current_savings annual_contribution years_to_invest) = fun o => o := rfl
    rw [hcomp, List.map_id']
  · rw [hmap, List.length_map]
  · intro row hrow
    rw [hmap] at hrow
    obtain ⟨o, _, rfl⟩ := List.mem_map.mp hrow
    rfl

theorem spec_C8_witness :
    (compRow (fun _ => 3 / 100) (5 / 100) 1000 100 10 "Government Bond (10-year)").totalContributions
      = 100 * ((10 : ℕ) : ℚ) := by
  have h := spec_C8 (fun _ => 3 / 100) (5 / 100) 1000 100 10
    ["Government Bond (10-year)", "Custom"]
  refine h.2.2.2 _ ?_
  rw [h.1]
  exact List.mem_map_of_mem _ (by simp)

/-- C10: with the inflation checkbox enabled only the primary selected rate
is adjusted (`manual_return = rate - inflationRate`); in the comparison
loop the "Custom" option reuses that adjusted `manual_return`, while every
non-Custom option re-invokes its rate function and is projected with its
raw, unadjusted rate. -/
theorem spec_C10 (rates : String → ℚ) (selected_option : String)
    (custom_input inflation_rate : ℚ) (opt : String) (h : opt ≠ "Custom") :
    manualReturnOf rates selected_option custom_input true inflation_rate =
      (if selected_option = "Custom" then custom_input else rates selected_option)
        - inflation_rate ∧
    return_rate_for rates
        (manualReturnOf rates selected_option custom_input true inflation_rate) opt
      = rates opt ∧
    return_rate_for rates
        (manualReturnOf rates selected_option custom_input true inflation_rate)
        "Custom"
      = (if selected_option = "Custom" then custom_input else rates selected_option)
          - inflation_rate := by
  refine ⟨rfl, ?_, ?_⟩
  · rw [return_rate_for, if_pos h]
  · rw [return_rate_for, if_neg (by simp)]
    rfl

theorem spec_C10_witness :
    return_rate_for (fun _ => 3 / 100)
      (manualReturnOf (fun _ => 3 / 100) "S&P 500 Index Fund (ETF)" (5 / 100)
        true (2 / 100)) "Government Bond (10-year)" = 3 / 100 :=
  (spec_C10 (fun _ => 3 / 100) "S&P 500 Index Fund (ETF)" (5 / 100) (2 / 100)
    "Government Bond (10-year)" (by decide)).2.1

end InvestHome
